import Mathlib

/-!
Verification of the form-delegate abstraction of `Wt::Form`
(`src/src/Wt/Form/WAbstractFormDelegate.h`).

The repository snapshot contains only the interface header of
`WAbstractFormDelegate`; the default method bodies (in the companion
`WAbstractFormDelegate.C`) and the calling form-view logic are part of the
repository but not in the snapshot.  Those are modelled here from the spec,
consistently with the header's own doc comments ("By default this sets the
value in the model to the string returned by WFormWidget::valueText",
"By default this method returns false",
"By default this uses WFormWidget::setValueText and WFormModel::value to
update the widget", "By default this returns a null pointer").

Values are modelled as strings: the spec treats the model as a key-value
store of raw values that "round-trips a string or an opaquely-typed value",
and the default synchronization path works entirely through the textual
representation (WFormWidget::valueText / setValueText).
-/

/-- Per-field entry of a `WFormModel`: the raw value together with the
validity result and the enabled/visible flags the model keeps per field. -/
structure FieldData where
  value : String
  validity : Bool
  enabled : Bool
  visible : Bool

/-- A form model: a mapping from field identifiers (modelled as strings, as
`WFormModel::Field` is a string constant) to per-field data. -/
structure WFormModel where
  state : String → FieldData

/-- Read a field's raw value out of the model (`WFormModel::value`). -/
def WFormModel.value (m : WFormModel) (field : String) : String :=
  (m.state field).value

/-- Write a field's raw value into the model (`WFormModel::setValue`);
only the value component of that one field's entry changes. -/
def WFormModel.setValue (m : WFormModel) (field : String) (v : String) : WFormModel :=
  ⟨fun f => if f = field then { m.state f with value := v } else m.state f⟩

/-- A widget satisfying the string capability (`Wt::WFormWidget`): it
exposes a current text value. -/
structure WFormWidget where
  valueText : String

/-- Set the widget's text value (`WFormWidget::setValueText`). -/
def WFormWidget.setValueText (_w : WFormWidget) (v : String) : WFormWidget :=
  ⟨v⟩

/-- An arbitrary widget (`Wt::WWidget`): either a form widget (to which a
dynamic cast to `WFormWidget` succeeds) or some other widget that does not
satisfy the string capability. -/
inductive WWidget where
  | form (w : WFormWidget)
  | plain (id : Nat)

/-- A validator (`Wt::WValidator`); only its presence or absence matters
for the claims about `createValidator`. -/
structure WValidator where
  mandatory : Bool

/-- Modelled from the spec: the default body of
`WAbstractFormDelegate::createValidator` is not in the snapshot; per the
header doc and the spec it "returns a null pointer" / "returns empty (no
validation)". -/
def defaultCreateValidator : Option WValidator :=
  none

/-- Modelled from the spec: the default body of the string-path overload
`WAbstractFormDelegate::updateModelValue(model, field, WFormWidget*)` is not
in the snapshot; per the header doc and the spec it "sets the value in the
model to the string returned by WFormWidget::valueText".  The pair returned
is the state of the model and of the widget after the call. -/
def defaultUpdateModelValueText (m : WFormModel) (field : String) (edit : WFormWidget) :
    WFormModel × WFormWidget :=
  (m.setValue field edit.valueText, edit)

/-- Modelled from the spec: the default body of the custom-path overload
`WAbstractFormDelegate::updateModelValue(model, field, WWidget*)` is not in
the snapshot; per the header doc and the spec it does nothing and
"returns false" (the not-handled sentinel). -/
def defaultUpdateModelValueCustom (m : WFormModel) (_field : String) (edit : WWidget) :
    (WFormModel × WWidget) × Bool :=
  ((m, edit), false)

/-- Modelled from the spec: the default body of the string-path overload
`WAbstractFormDelegate::updateViewValue(model, field, WFormWidget*)` is not
in the snapshot; per the header doc and the spec it "uses
WFormWidget::setValueText and WFormModel::value to update the widget". -/
def defaultUpdateViewValueText (m : WFormModel) (field : String) (edit : WFormWidget) :
    WFormModel × WFormWidget :=
  (m, edit.setValueText (m.value field))

/-- Modelled from the spec: the default body of the custom-path overload
`WAbstractFormDelegate::updateViewValue(model, field, WWidget*)` is not in
the snapshot; per the header doc and the spec it does nothing and
"returns false" (the not-handled sentinel). -/
def defaultUpdateViewValueCustom (m : WFormModel) (_field : String) (edit : WWidget) :
    (WFormModel × WWidget) × Bool :=
  ((m, edit), false)

/-- A form delegate: the overridable operations of
`Wt::Form::WAbstractFormDelegate` (the pure virtual `createFormWidget` is
not needed by the claims).  Each overload may observe and update the model
and the widget it is handed. -/
structure WAbstractFormDelegate where
  createValidator : Option WValidator
  updateModelValueText : WFormModel → String → WFormWidget → WFormModel × WFormWidget
  updateModelValueCustom : WFormModel → String → WWidget → (WFormModel × WWidget) × Bool
  updateViewValueText : WFormModel → String → WFormWidget → WFormModel × WFormWidget
  updateViewValueCustom : WFormModel → String → WWidget → (WFormModel × WWidget) × Bool

/-- A delegate with no overrides: every operation has its default body. -/
def defaultDelegate : WAbstractFormDelegate :=
  { createValidator := defaultCreateValidator
    updateModelValueText := defaultUpdateModelValueText
    updateModelValueCustom := defaultUpdateModelValueCustom
    updateViewValueText := defaultUpdateViewValueText
    updateViewValueCustom := defaultUpdateViewValueCustom }

/-- Which update path performed the synchronization. -/
inductive SyncPath where
  | custom
  | text
  | unhandled

/-- Modelled from the spec: the calling form-view logic
(`WTemplateFormView::updateModelValue`, not in the snapshot) "must invoke
the custom path first; only if it returns false does the caller fall back
to the string path", the fallback casting the widget to `WFormWidget`.
The result also records which path performed the write. -/
def syncModelValue (d : WAbstractFormDelegate) (m : WFormModel) (field : String)
    (w : WWidget) : (WFormModel × WWidget) × SyncPath :=
  match d.updateModelValueCustom m field w with
  | (s, true) => (s, SyncPath.custom)
  | ((m1, w1), false) =>
    match w1 with
    | WWidget.form fw =>
      let r := d.updateModelValueText m1 field fw
      ((r.1, WWidget.form r.2), SyncPath.text)
    | WWidget.plain i => ((m1, WWidget.plain i), SyncPath.unhandled)

/-- One operation of a default (non-overridden) delegate on a form model,
or a direct programmatic set; used to state the last-writer invariant. -/
inductive Op where
  | updateModel (field : String) (edit : WFormWidget)
  | updateView (field : String) (edit : WFormWidget)
  | setDirect (field : String) (v : String)
  | customModel (field : String) (edit : WWidget)
  | customView (field : String) (edit : WWidget)

/-- Effect of one operation on the model (the model component of the
corresponding default delegate operation, or a direct `setValue`). -/
def runOp (m : WFormModel) : Op → WFormModel
  | Op.updateModel field edit => (defaultUpdateModelValueText m field edit).1
  | Op.updateView field edit => (defaultUpdateViewValueText m field edit).1
  | Op.setDirect field v => m.setValue field v
  | Op.customModel field edit => ((defaultUpdateModelValueCustom m field edit).1).1
  | Op.customView field edit => ((defaultUpdateViewValueCustom m field edit).1).1

/-- Run a sequence of operations on the model, left to right. -/
def runOps (m : WFormModel) : List Op → WFormModel
  | [] => m
  | op :: rest => runOps (runOp m op) rest

/-- The last value explicitly pushed into the given field by an
`updateModelValue` or a direct programmatic set in the sequence, starting
from `current`; this is the spec's description of what the model must hold. -/
def lastPushed (field : String) (current : String) : List Op → String
  | [] => current
  | Op.updateModel f edit :: rest =>
    lastPushed field (if field = f then edit.valueText else current) rest
  | Op.setDirect f v :: rest =>
    lastPushed field (if field = f then v else current) rest
  | Op.updateView _ _ :: rest => lastPushed field current rest
  | Op.customModel _ _ :: rest => lastPushed field current rest
  | Op.customView _ _ :: rest => lastPushed field current rest

/-- Reading a value after a write: the written value at the written field,
the old value elsewhere. -/
theorem setValue_value (m : WFormModel) (f v g : String) :
    (m.setValue f v).value g = if g = f then v else m.value g := by
  simp only [WFormModel.setValue, WFormModel.value]
  by_cases h : g = f <;> simp [h]

/-- Example model used by witnesses: every field starts out empty. -/
def exampleModel : WFormModel :=
  ⟨fun _ => ⟨"", true, true, true⟩⟩

/-- Example form widget used by witnesses. -/
def exampleWidget : WFormWidget :=
  ⟨"hello"⟩

/-- Example delegate used by witnesses: its custom-path updateModelValue
writes the model itself and reports handled. -/
def customDelegateExample : WAbstractFormDelegate :=
  { createValidator := defaultCreateValidator
    updateModelValueText := defaultUpdateModelValueText
    updateModelValueCustom := fun m field w => ((m.setValue field "custom-value", w), true)
    updateViewValueText := defaultUpdateViewValueText
    updateViewValueCustom := defaultUpdateViewValueCustom }

/-- Claim C1: for every delegate, model, field and widget, when the
custom-path updateModelValue reports handled (returns true), the caller's
synchronization is exactly the custom call's result and is marked as having
taken the custom path, so the string-path body never executes and exactly
one path writes to the model. -/
theorem syncModelValue_custom_suppresses_text (d : WAbstractFormDelegate)
    (m : WFormModel) (field : String) (w : WWidget) (s : WFormModel × WWidget)
    (h : d.updateModelValueCustom m field w = (s, true)) :
    syncModelValue d m field w = (s, SyncPath.custom) := by
  simp [syncModelValue, h]

/-- Witness for C1 at a concrete delegate, model, field and widget. -/
theorem syncModelValue_custom_suppresses_text_witness :
    customDelegateExample.updateModelValueCustom exampleModel "name" (WWidget.form exampleWidget)
      = ((exampleModel.setValue "name" "custom-value", WWidget.form exampleWidget), true) ∧
    syncModelValue customDelegateExample exampleModel "name" (WWidget.form exampleWidget)
      = ((exampleModel.setValue "name" "custom-value", WWidget.form exampleWidget),
         SyncPath.custom) :=
  ⟨rfl, syncModelValue_custom_suppresses_text customDelegateExample exampleModel "name"
    (WWidget.form exampleWidget)
    (exampleModel.setValue "name" "custom-value", WWidget.form exampleWidget) rfl⟩

/-- Claim C2: for every model, field and form widget, the default
string-path updateModelValue leaves the model holding the widget's current
text value at that field. -/
theorem updateModelValueText_sets_model (m : WFormModel) (field : String)
    (edit : WFormWidget) :
    ((defaultUpdateModelValueText m field edit).1).value field = edit.valueText := by
  simp [defaultUpdateModelValueText, setValue_value]

/-- Claim C3: for every model, field and form widget, the default
string-path updateViewValue leaves the widget's text value equal to the
model's current value for that field. -/
theorem updateViewValueText_sets_widget (m : WFormModel) (field : String)
    (edit : WFormWidget) :
    ((defaultUpdateViewValueText m field edit).2).valueText = m.value field := rfl

/-- Claim C4: for every model, field and widget, both default custom-path
overloads return false, the not-handled sentinel. -/
theorem defaultCustom_returns_false (m : WFormModel) (field : String) (edit : WWidget) :
    (defaultUpdateModelValueCustom m field edit).2 = false ∧
    (defaultUpdateViewValueCustom m field edit).2 = false :=
  ⟨rfl, rfl⟩

/-- Claim C5: for every model, field and form widget, the default
string-path updateModelValue followed immediately by the default
string-path updateViewValue on the same model, field and widget restores
the widget to its original text value. -/
theorem roundTrip_restores_widget (m : WFormModel) (field : String)
    (edit : WFormWidget) :
    ((defaultUpdateViewValueText (defaultUpdateModelValueText m field edit).1 field
      (defaultUpdateModelValueText m field edit).2).2).valueText = edit.valueText := by
  simp [defaultUpdateModelValueText, defaultUpdateViewValueText,
    WFormWidget.setValueText, setValue_value]

/-- Claim C6: for every model, field and form widget, the default
string-path updateViewValue is idempotent: applying it twice with no
intervening model change gives the same widget state as applying it once. -/
theorem updateViewValueText_idempotent (m : WFormModel) (field : String)
    (edit : WFormWidget) :
    (defaultUpdateViewValueText m field (defaultUpdateViewValueText m field edit).2).2 =
    (defaultUpdateViewValueText m field edit).2 := rfl

/-- Claim C7: a delegate with no overridden createValidator returns an
absent validator (a null pointer): the default attaches no validation. -/
theorem defaultDelegate_createValidator_none :
    defaultDelegate.createValidator = none := rfl

/-- Claim C8: over every sequence of default delegate operations and direct
sets, the model's stored value for a field is always the last value pushed
into it via updateModelValue or a direct set (or the initial value when no
such write occurred); no other operation overwrites it from widget state. -/
theorem runOps_value_lastPushed (m : WFormModel) (ops : List Op) (field : String) :
    (runOps m ops).value field = lastPushed field (m.value field) ops := by
  induction ops generalizing m with
  | nil => rfl
  | cons op rest ih =>
    cases op with
    | updateModel f edit =>
      simp only [runOps, runOp, lastPushed, defaultUpdateModelValueText]
      rw [ih, setValue_value]
    | updateView f edit =>
      simp only [runOps, runOp, lastPushed, defaultUpdateViewValueText]
      exact ih m
    | setDirect f v =>
      simp only [runOps, runOp, lastPushed]
      rw [ih, setValue_value]
    | customModel f edit =>
      simp only [runOps, runOp, lastPushed, defaultUpdateModelValueCustom]
      exact ih m
    | customView f edit =>
      simp only [runOps, runOp, lastPushed, defaultUpdateViewValueCustom]
      exact ih m

/-- Claim C9: for every model, field, form widget and other field distinct
from the given one, the default string-path updateModelValue leaves the
other field's whole entry (value, validity, enabled, visible) unchanged and
leaves the widget unchanged. -/
theorem updateModelValueText_frame (m : WFormModel) (field : String)
    (edit : WFormWidget) (f : String) (h : f ≠ field) :
    ((defaultUpdateModelValueText m field edit).1).state f = m.state f ∧
    (defaultUpdateModelValueText m field edit).2 = edit := by
  refine ⟨?_, rfl⟩
  simp [defaultUpdateModelValueText, WFormModel.setValue, h]

/-- Witness for C9 at a concrete model, two distinct fields and a widget. -/
theorem updateModelValueText_frame_witness :
    ("age" : String) ≠ "name" ∧
    (((defaultUpdateModelValueText exampleModel "name" exampleWidget).1).state "age"
        = exampleModel.state "age" ∧
      (defaultUpdateModelValueText exampleModel "name" exampleWidget).2 = exampleWidget) :=
  ⟨by decide, updateModelValueText_frame exampleModel "name" exampleWidget "age" (by decide)⟩

/-- Claim C10: for every model, field and widget, the default custom-path
overloads of updateModelValue and updateViewValue have no side effects:
they return the model and widget unchanged together with the false
sentinel. -/
theorem defaultCustom_no_side_effects (m : WFormModel) (field : String) (edit : WWidget) :
    defaultUpdateModelValueCustom m field edit = ((m, edit), false) ∧
    defaultUpdateViewValueCustom m field edit = ((m, edit), false) :=
  ⟨rfl, rfl⟩
